import Mathlib

/-!
Verification of an image-upload HTTP service against its specification.

The repository contains three variants of the server:
* `V1` — the first half of `server.js`: upload with a type filter
  (`/jpe?g|png|gif|webp/i`), 10 MiB / single-file limits, and a post-write
  content sniff (`validateImage`) that unlinks the file on failure.
* `V2` — the second half of `server.js`: upload with a type filter
  (`/jpe?g|png|gif/`, extension lowercased first), the same limits, no
  content sniff, and a batch `POST /delete` endpoint that validates each
  name against `/^[\w\-\.]+$/` before touching the filesystem.
* `P0` — the unnamed source file: a bare `multer({ storage })` upload with
  no file filter and no limits, a single-item `DELETE /image/:filename`
  endpoint with no name validation, and an unfiltered, unsorted dashboard.

The filesystem Store is modelled as the list of file names present in the
upload directory; filesystem side effects are made explicit as `FsOp`
values returned alongside each operation result.
-/

/-- A character membership test for the JS regex character class `\w`
(ASCII letters, digits and underscore; JS `\w` is ASCII-only without the
`u` flag). -/
def isWordChar (c : Char) : Bool :=
  ('a' ≤ c && c ≤ 'z') || ('A' ≤ c && c ≤ 'Z') || ('0' ≤ c && c ≤ '9') || c == '_'

/-- `containsSeq needle hay` decides whether `needle` occurs as a
contiguous subsequence of `hay`; this is the semantics of testing a JS
regex consisting of a literal alternative against a string. -/
def containsSeq (needle : List Char) : List Char → Bool
  | [] => needle.isEmpty
  | c :: rest => needle.isPrefixOf (c :: rest) || containsSeq needle rest

/-- String version of `containsSeq`. -/
def containsTok (needle s : String) : Bool :=
  containsSeq needle.data s.data

/-- Lowercasing of a string, used for the JS `toLowerCase()` calls and the
`i` regex flag (ASCII case folding; `Char.toLower` lowercases exactly the
ASCII uppercase letters of the names involved). -/
def toLowerStr (s : String) : String := ⟨s.data.map Char.toLower⟩

/-- Whether `p` is a leading piece of `s`, as JS `String.prototype.startsWith`. -/
def startsWithStr (s p : String) : Bool := p.data.isPrefixOf s.data

/-- The characters of a string after the last occurrence of `sep`
(the whole string if `sep` does not occur). Used to take the basename of
a path, as Node `path.extname` does. -/
def lastSegment (sep : Char) (l : List Char) : List Char :=
  l.foldl (fun acc c => if c == sep then [] else acc ++ [c]) []

/-- Extension (including the leading dot) of a basename, following the Node
`path.extname`: the suffix from the last `.`, empty when there is no dot,
when the only dot is the leading character (dotfiles), or for `".."`. -/
def extChars (l : List Char) : List Char :=
  if l = ['.', '.'] then []
  else
    let r := l.reverse
    let pre := r.takeWhile (fun c => !(c == '.'))
    if pre.length == r.length then []
    else if (r.drop (pre.length + 1)).isEmpty then []
    else '.' :: pre.reverse

/-- Embedding of the Node function `path.extname`. -/
def extname (s : String) : String :=
  ⟨extChars (lastSegment '/' s.data)⟩

/-- One multipart file of an upload request: the client-declared name and
MIME type, the byte length, and the MIME type that `file-type` sniffing of
its leading bytes would report (`none` when the bytes match no known
signature). -/
structure UploadFile where
  originalname : String
  mimetype : String
  size : Nat
  sniffedMime : Option String
deriving DecidableEq, Repr

/-- Outcome of an upload request. -/
inductive UploadOutcome where
  /-- 201 with the stored filename. -/
  | accepted (storedName : String)
  /-- 400: no file in the request. -/
  | missingFile
  /-- 400: the multer `fileFilter` rejected the file. -/
  | rejectedType
  /-- 400: the 10 MiB `fileSize` limit aborted the upload. -/
  | rejectedSize
  /-- 400: more than one file (`.single` / `files: 1`). -/
  | rejectedCount
  /-- 400: the post-write content sniff failed (`V1` only). -/
  | rejectedContent
deriving DecidableEq, Repr

/-- Whether an outcome is an acceptance. -/
def isAccepted : UploadOutcome → Bool
  | UploadOutcome.accepted _ => true
  | _ => false

/-- Writing a file into the Store: the directory afterwards contains the
name (a same-named file, were one present, would be overwritten in place,
so the name is not duplicated). -/
def insertFile (store : List String) (name : String) : List String :=
  if store.contains name then store else store ++ [name]

/-- An explicit filesystem side effect. -/
inductive FsOp where
  | existsCheck (path : String)
  | unlink (path : String)
deriving DecidableEq, Repr

/-- The upload directory (`path.join` of `__dirname`, `public`, `uploads`),
with `__dirname` elided. -/
def uploadDir : String := "public/uploads"

/-- `path.join(dir, name)` for a single name component. Safe-pattern names
contain no `/`, so joining is concatenation except that Node normalizes the
dot-only components: `"."` resolves to the upload directory itself and
`".."` to its parent (`public`), both of which exist as directories. -/
def pathJoin (dir name : String) : String :=
  if name == "." then dir
  else if name == ".." then "public"
  else dir ++ "/" ++ name

/-- The message of the error `fs.unlinkSync` throws when the joined path
resolves to an existing directory (the `"."` / `".."` cases). -/
def fsDirError : String := "EISDIR: illegal operation on a directory, unlink"

/-! ## V1 — first `server.js` variant -/

/-- The test `filetypes.test(s)` for the `V1` regex `/jpe?g|png|gif|webp/i`: one of the
literal alternatives occurs anywhere in the string, case-insensitively
(the `i` flag is modelled by lowercasing the input). -/
def V1.filetypesTest (s : String) : Bool :=
  let t := toLowerStr s
  containsTok "jpg" t || containsTok "jpeg" t || containsTok "png" t ||
    containsTok "gif" t || containsTok "webp" t

/-- The `V1` multer `fileFilter`: the regex must match both the declared MIME
type and the extension of the original name. -/
def V1.fileFilter (f : UploadFile) : Bool :=
  V1.filetypesTest f.mimetype && V1.filetypesTest (extname f.originalname)

/-- `V1`/`V2` `storage.filename`: the value of `Date.now()`, a hyphen,
the value of `Math.round(Math.random() * 1E9)`, then the lowercased
original extension. -/
def V1.filename (ts rand : Nat) (orig : String) : String :=
  toString ts ++ "-" ++ toString rand ++ toLowerStr (extname orig)

/-- Identical `storage.filename` in the second `server.js` variant. -/
def V2.filename (ts rand : Nat) (orig : String) : String :=
  toString ts ++ "-" ++ toString rand ++ toLowerStr (extname orig)

/-- The `validateImage` check on the sniffed type: `file-type` must recognize
the bytes and report a MIME type starting with `image/`. -/
def validateImage (sniff : Option String) : Bool :=
  match sniff with
  | none => false
  | some m => startsWithStr m "image/"

/-- The `allowedTypes` list returned with the `V1` 400 responses. -/
def V1.allowedTypes : List String :=
  ["image/jpeg", "image/png", "image/gif", "image/webp"]

/-- The `V1` `POST /upload` pipeline. `files` are the files of the multipart
request (`.single` on the image field plus `files: 1` reject more than one; multer
removes any already-written file when it errors, so the Store is unchanged
on those rejections). On a type/size pass the file is written under the
generated name, then `validateImage` sniffs it and unlinks it on failure.
`ts`/`rand` stand for the values of `Date.now()` and the random suffix. -/
def V1.uploadPipeline (store : List String) (files : List UploadFile)
    (ts rand : Nat) : UploadOutcome × List String :=
  match files with
  | [] => (UploadOutcome.missingFile, store)
  | [f] =>
    if V1.fileFilter f = false then (UploadOutcome.rejectedType, store)
    else if 10 * 1024 * 1024 < f.size then (UploadOutcome.rejectedSize, store)
    else
      let name := V1.filename ts rand f.originalname
      let written := insertFile store name
      if validateImage f.sniffedMime then (UploadOutcome.accepted name, written)
      else (UploadOutcome.rejectedContent, written.filter (fun s => !(s == name)))
  | _ :: _ :: _ => (UploadOutcome.rejectedCount, store)

/-- Image extensions recognized by the `V1` dashboard listing. -/
def V1.recognizedExts : List String := [".jpg", ".jpeg", ".png", ".gif", ".webp"]

/-- The `V1` dashboard listing: filter the directory to recognized image
extensions and sort descending by modification time (`mtime` gives each
file `mtimeMs` value; JS `Array.prototype.sort` is stable, modelled by a stable
merge sort). -/
def V1.listImages (files : List String) (mtime : String → Nat) : List String :=
  (files.filter (fun f => V1.recognizedExts.contains (toLowerStr (extname f)))).mergeSort
    (fun a b => mtime b ≤ mtime a)

/-! ## V2 — second `server.js` variant -/

/-- The test `filetypes.test(s)` for the `V2` regex `/jpe?g|png|gif/` (case-sensitive,
no `webp`). -/
def V2.filetypesTest (s : String) : Bool :=
  containsTok "jpg" s || containsTok "jpeg" s || containsTok "png" s ||
    containsTok "gif" s

/-- The `V2` multer `fileFilter`: the regex must match both the declared MIME
type and the lowercased extension of the original name. -/
def V2.fileFilter (f : UploadFile) : Bool :=
  V2.filetypesTest f.mimetype && V2.filetypesTest (toLowerStr (extname f.originalname))

/-- The `V2` `POST /upload` pipeline: same storage and limits as `V1`, but no
post-write content sniff. -/
def V2.uploadPipeline (store : List String) (files : List UploadFile)
    (ts rand : Nat) : UploadOutcome × List String :=
  match files with
  | [] => (UploadOutcome.missingFile, store)
  | [f] =>
    if V2.fileFilter f = false then (UploadOutcome.rejectedType, store)
    else if 10 * 1024 * 1024 < f.size then (UploadOutcome.rejectedSize, store)
    else
      let name := V2.filename ts rand f.originalname
      (UploadOutcome.accepted name, insertFile store name)
  | _ :: _ :: _ => (UploadOutcome.rejectedCount, store)

/-- Image extensions recognized by the `V2` dashboard listing (no `.webp`). -/
def V2.recognizedExts : List String := [".jpg", ".jpeg", ".png", ".gif"]

/-- The `V2` dashboard listing: filter to recognized extensions, sort
descending by modification time. -/
def V2.listImages (files : List String) (mtime : String → Nat) : List String :=
  (files.filter (fun f => V2.recognizedExts.contains (toLowerStr (extname f)))).mergeSort
    (fun a b => mtime b ≤ mtime a)

/-- The safe-name test of the `V2` batch delete: `/^[\w\-\.]+$/`. -/
def V2.safeName (s : String) : Bool :=
  !s.data.isEmpty && s.data.all (fun c => isWordChar c || c == '-' || c == '.')

/-- One per-item entry of the batch delete response, mirroring the JSON
shape `{filename, status, message?}`. -/
structure ItemResult where
  filename : String
  status : String
  message : Option String
deriving DecidableEq, Repr

/-- Per-item classification used by the spec: a success entry. -/
def isSuccessItem (r : ItemResult) : Bool := r.status == "success"

/-- Per-item classification used by the spec: an invalid-name entry. -/
def isInvalidItem (r : ItemResult) : Bool := r.message == some "Invalid filename"

/-- Per-item classification used by the spec: a not-found entry. -/
def isNotFoundItem (r : ItemResult) : Bool := r.message == some "File not found"

/-- One item of the `V2` batch delete (the body of the `map` in
`POST /delete`): validate the name, then `existsSync` and `unlinkSync`.
For the safe-pattern names `"."` and `".."` the joined path resolves to an
existing directory, so the `existsSync` check passes and `unlinkSync`
throws, which the per-item `catch` turns into an error entry carrying the
thrown message. Returns the entry, the Store afterwards, and the
filesystem operations performed. -/
def V2.deleteItem (store : List String) (image : String) :
    ItemResult × List String × List FsOp :=
  if V2.safeName image = false then
    ({ filename := image, status := "error", message := some "Invalid filename" },
      store, [])
  else if image == "." || image == ".." then
    ({ filename := image, status := "error", message := some fsDirError },
      store,
      [FsOp.existsCheck (pathJoin uploadDir image), FsOp.unlink (pathJoin uploadDir image)])
  else if store.contains image then
    ({ filename := image, status := "success", message := none },
      store.filter (fun s => !(s == image)),
      [FsOp.existsCheck (pathJoin uploadDir image), FsOp.unlink (pathJoin uploadDir image)])
  else
    ({ filename := image, status := "error", message := some "File not found" },
      store,
      [FsOp.existsCheck (pathJoin uploadDir image)])

/-- Sequential processing of the batch (`imagesToDelete.map(...)`): each
item sees the Store as left by the previous items. -/
def V2.processItems (store : List String) : List String → List ItemResult × List String
  | [] => ([], store)
  | i :: rest =>
    let step := V2.deleteItem store i
    let next := V2.processItems step.2.1 rest
    (step.1 :: next.1, next.2)

/-- The three response shapes of `POST /delete`. -/
inductive DeleteResponse where
  /-- The 400 response whose error text is: No images selected for deletion. -/
  | emptySelection
  /-- The 400 response carrying an error text (No files were deleted) and the details. -/
  | allFailed (details : List ItemResult)
  /-- 200 `{success: true, deleted, total, details}`. -/
  | ok (deleted total : Nat) (details : List ItemResult)
deriving DecidableEq, Repr

/-- The per-item details carried by a response (none for the empty-request
rejection). -/
def DeleteResponse.detailsOf : DeleteResponse → List ItemResult
  | DeleteResponse.emptySelection => []
  | DeleteResponse.allFailed d => d
  | DeleteResponse.ok _ _ d => d

/-- The HTTP status of a response. -/
def DeleteResponse.statusOf : DeleteResponse → Nat
  | DeleteResponse.emptySelection => 400
  | DeleteResponse.allFailed _ => 400
  | DeleteResponse.ok _ _ _ => 200

/-- The `V2` `POST /delete` handler: reject an empty selection, process every
item, then answer 400 when no item succeeded and 200 with the counts
otherwise. -/
def V2.deleteBatch (store : List String) (imgs : List String) :
    DeleteResponse × List String :=
  if imgs.isEmpty then (DeleteResponse.emptySelection, store)
  else if ((V2.processItems store imgs).1.filter isSuccessItem).length == 0 then
    (DeleteResponse.allFailed (V2.processItems store imgs).1,
      (V2.processItems store imgs).2)
  else
    (DeleteResponse.ok ((V2.processItems store imgs).1.filter isSuccessItem).length
      imgs.length (V2.processItems store imgs).1,
      (V2.processItems store imgs).2)

/-! ## P0 — the unnamed variant -/

/-- The `P0` `storage.filename`: `Date.now() + path.extname(originalname)` —
no random suffix and no lowercasing. -/
def P0.filename (ts : Nat) (orig : String) : String :=
  toString ts ++ extname orig

/-- The `P0` `POST /upload` pipeline: `multer({ storage })` configures no
`fileFilter` and no `limits`, so any single file of any size is written
(the single-file middleware still rejects a second file). -/
def P0.uploadPipeline (store : List String) (files : List UploadFile)
    (ts : Nat) : UploadOutcome × List String :=
  match files with
  | [] => (UploadOutcome.missingFile, store)
  | [f] =>
    let name := P0.filename ts f.originalname
    (UploadOutcome.accepted name, insertFile store name)
  | _ :: _ :: _ => (UploadOutcome.rejectedCount, store)

/-- Response of the `P0` single-item `DELETE /image/:filename`. -/
structure P0Response where
  httpStatus : Nat
  success : Bool
deriving DecidableEq, Repr

/-- The `P0` `DELETE /image/:filename` handler: no validation of the name — the path
is joined and `fs.unlink` called unconditionally. The unlink succeeds
exactly when the name denotes a file of the Store; otherwise (absent file,
or a path resolving outside the files of the Store) the callback receives an
error and the handler answers 500. -/
def P0.deleteImage (store : List String) (filename : String) :
    P0Response × List String × List FsOp :=
  if store.contains filename then
    ({ httpStatus := 200, success := true },
      store.filter (fun s => !(s == filename)),
      [FsOp.unlink (pathJoin uploadDir filename)])
  else
    ({ httpStatus := 500, success := false }, store,
      [FsOp.unlink (pathJoin uploadDir filename)])

/-- An entry of the `P0` dashboard model. -/
structure ImageEntry where
  name : String
  url : String
deriving DecidableEq, Repr

/-- The `P0` `GET /dashboard` handler: every directory entry is rendered, with no
extension filter and no sorting. -/
def P0.dashboardImages (files : List String) : List ImageEntry :=
  files.map (fun f => { name := f, url := "/uploads/" ++ f })

/-- The multer `limits` configuration. -/
structure MulterLimits where
  fileSize : Nat
  files : Nat
deriving DecidableEq, Repr

/-- The `V1` limits: `{ fileSize: 10 * 1024 * 1024, files: 1 }`. -/
def V1.limits : Option MulterLimits := some { fileSize := 10 * 1024 * 1024, files := 1 }

/-- The `V2` limits: `{ fileSize: 10 * 1024 * 1024, files: 1 }`. -/
def V2.limits : Option MulterLimits := some { fileSize := 10 * 1024 * 1024, files := 1 }

/-- `P0` passes no `limits` to multer. -/
def P0.limits : Option MulterLimits := none

/-- Whether a request of `count` files of `size` bytes each passes a
`limits` configuration (absent limits impose nothing). -/
def limitsAccept (l : Option MulterLimits) (size count : Nat) : Bool :=
  match l with
  | none => true
  | some l => size ≤ l.fileSize && count ≤ l.files

/-- The generated-name contract of the spec: a millisecond timestamp, a hyphen,
a random integer, and the lowercased original extension. -/
def FollowsGeneratedPattern (orig name : String) : Prop :=
  ∃ ts rand : Nat, name = toString ts ++ "-" ++ toString rand ++ toLowerStr (extname orig)

/-! ## Concrete sample inputs used by witnesses and counterexamples -/

/-- A plain text file: nothing matches any allow-list. -/
def sampleTxt : UploadFile := ⟨"script.txt", "text/plain", 10, none⟩

/-- Declared MIME type matches the allow-lists, the extension does not. -/
def sampleTxtPng : UploadFile := ⟨"a.txt", "image/png", 10, none⟩

/-- A declared PNG one byte over the 10 MiB ceiling. -/
def sampleBig : UploadFile := ⟨"big.png", "image/png", 10 * 1024 * 1024 + 1, none⟩

/-- A small well-formed PNG upload. -/
def sampleA : UploadFile := ⟨"a.png", "image/png", 1, none⟩

/-- A second small well-formed PNG upload. -/
def sampleB : UploadFile := ⟨"b.png", "image/png", 1, none⟩

/-- Declared a PNG but the bytes sniff as plain text. -/
def sampleSniffFail : UploadFile := ⟨"a.png", "image/png", 100, some "text/plain"⟩

/-- Declared a PNG but the bytes sniff as a BMP image. -/
def sampleBmp : UploadFile := ⟨"b.png", "image/png", 50, some "image/bmp"⟩

/-- A genuine PNG with an uppercase extension spelling. -/
def sampleOkUpper : UploadFile := ⟨"a.PNG", "image/png", 100, some "image/png"⟩

/-- Declared MIME type `application/x-png-fake` with a `.png` extension. -/
def sampleFake : UploadFile := ⟨"a.png", "application/x-png-fake", 10, none⟩

/-! ## Helper lemmas -/

/-- A string built as timestamp, hyphen, random suffix, extension always
contains a hyphen character. -/
theorem dash_mem_pattern (a b c : String) : '-' ∈ (a ++ "-" ++ b ++ c).data := by
  simp only [String.data_append]
  simp [List.mem_append]

/-- Writing a file and then unlinking it leaves a sub-collection of the
original Store. -/
theorem insert_then_remove_sublist (store : List String) (name : String) :
    ((insertFile store name).filter (fun s => !(s == name))).Sublist store := by
  unfold insertFile
  split
  · exact List.filter_sublist store
  · rw [List.filter_append]
    simp

/-- A name does not survive its own removal. -/
theorem not_mem_remove (l : List String) (name : String) :
    name ∉ l.filter (fun s => !(s == name)) := by
  simp [List.mem_filter]

/-- Removing one name does not change membership of any other name. -/
theorem contains_filter_ne (store : List String) (i j : String) (h : j ≠ i) :
    (store.filter (fun s => !(s == i))).contains j = store.contains j := by
  rw [Bool.eq_iff_iff]
  simp [List.mem_filter, h]

/-! ## C10 -/

/-- C10: the upload type filter tests the allow-list regex as a substring of
the declared MIME type and extension, so the declared MIME type
`application/x-png-fake` with extension `.png` passes both the `V1` and the
`V2` filter although it is not one of the allowed image MIME types. -/
theorem c10_substring_filter :
    V1.fileFilter sampleFake = true ∧
    V2.fileFilter sampleFake = true ∧
    V1.allowedTypes.contains "application/x-png-fake" = false := by
  decide

/-! ## C1 -/

/-- C1 counterexample: in the single-item form (`DELETE /image/:filename` of
`P0`) a name failing the safe pattern, here `../x`, is not validated at all:
the handler performs an `fs.unlink` on the joined path (a filesystem
access), and its outcome is a 500 response, not an invalid-name report. -/
theorem c1_single_delete_skips_validation_cex :
    V2.safeName "../x" = false ∧
    (P0.deleteImage [] "../x").2.2 ≠ [] ∧
    (P0.deleteImage [] "../x").1.httpStatus = 500 := by
  decide

/-- C1 (amended): a deletion request whose filename fails the safe pattern
performs no filesystem access and reports invalid-name in the batch form
(`POST /delete`); the single-item form (`DELETE /image/:filename`) performs
no validation and always issues an unlink on the joined path. -/
theorem c1_invalid_name_delete (store : List String) (img : String)
    (h : V2.safeName img = false) :
    (V2.deleteItem store img).1 =
      { filename := img, status := "error", message := some "Invalid filename" } ∧
    (V2.deleteItem store img).2.1 = store ∧
    (V2.deleteItem store img).2.2 = [] ∧
    (P0.deleteImage store img).2.2 = [FsOp.unlink (pathJoin uploadDir img)] := by
  have h4 : (P0.deleteImage store img).2.2 = [FsOp.unlink (pathJoin uploadDir img)] := by
    unfold P0.deleteImage
    split <;> rfl
  refine ⟨?_, ?_, ?_, h4⟩ <;> simp [V2.deleteItem, h]

/-- C1 witness: the amended statement evaluated at the malformed name
`a b` over a one-file Store. -/
theorem c1_invalid_name_delete_witness :
    (V2.deleteItem ["x.png"] "a b").1 =
      { filename := "a b", status := "error", message := some "Invalid filename" } ∧
    (V2.deleteItem ["x.png"] "a b").2.1 = ["x.png"] ∧
    (V2.deleteItem ["x.png"] "a b").2.2 = [] ∧
    (P0.deleteImage ["x.png"] "a b").2.2 = [FsOp.unlink (pathJoin uploadDir "a b")] :=
  c1_invalid_name_delete ["x.png"] "a b" (by decide)

/-! ## C5 -/

/-- C5 counterexample: the `P0` variant configures no `fileFilter`, so an
upload whose declared MIME type and extension both fail every allow-list
test is accepted and stored. -/
theorem c5_filterless_accept_cex :
    (P0.uploadPipeline [] [sampleTxt] 5).1 = UploadOutcome.accepted "5.txt" ∧
    V1.filetypesTest sampleTxt.mimetype = false ∧
    V1.filetypesTest (extname sampleTxt.originalname) = false ∧
    V2.filetypesTest sampleTxt.mimetype = false ∧
    V2.filetypesTest (toLowerStr (extname sampleTxt.originalname)) = false := by
  decide

/-- C5 (amended): in the two `server.js` variants the filter accepts a file
exactly when BOTH the declared MIME type and the declared extension match
the allow-list pattern, so a file for which only one of the two matches is
rejected; the `P0` variant applies no type filter and accepts every
single-file upload. -/
theorem c5_filter_requires_both (store : List String) (f : UploadFile) (ts : Nat) :
    (V1.fileFilter f = true →
      V1.filetypesTest f.mimetype = true ∧ V1.filetypesTest (extname f.originalname) = true) ∧
    (¬(V1.filetypesTest f.mimetype = true ∧ V1.filetypesTest (extname f.originalname) = true) →
      V1.fileFilter f = false) ∧
    (V2.fileFilter f = true →
      V2.filetypesTest f.mimetype = true ∧
        V2.filetypesTest (toLowerStr (extname f.originalname)) = true) ∧
    (¬(V2.filetypesTest f.mimetype = true ∧
        V2.filetypesTest (toLowerStr (extname f.originalname)) = true) →
      V2.fileFilter f = false) ∧
    (P0.uploadPipeline store [f] ts).1
      = UploadOutcome.accepted (P0.filename ts f.originalname) := by
  refine ⟨?_, ?_, ?_, ?_, rfl⟩ <;>
    cases h1 : V1.filetypesTest f.mimetype <;>
    cases h2 : V1.filetypesTest (extname f.originalname) <;>
    cases h3 : V2.filetypesTest f.mimetype <;>
    cases h4 : V2.filetypesTest (toLowerStr (extname f.originalname)) <;>
    simp [V1.fileFilter, V2.fileFilter, h1, h2, h3, h4]

/-- C5 witness: a file whose declared MIME type matches but whose extension
does not is rejected by both filters. -/
theorem c5_filter_requires_both_witness :
    V1.fileFilter sampleTxtPng = false ∧ V2.fileFilter sampleTxtPng = false :=
  ⟨(c5_filter_requires_both [] sampleTxtPng 5).2.1 (by decide),
   (c5_filter_requires_both [] sampleTxtPng 5).2.2.2.1 (by decide)⟩

/-! ## C6 -/

/-- C6 counterexample: the `P0` variant passes no `limits` to multer, so a
single file one byte over the 10 MiB ceiling is accepted and stored. -/
theorem c6_no_size_limit_cex :
    (P0.uploadPipeline [] [sampleBig] 8).1 = UploadOutcome.accepted "8.png" ∧
    P0.limits = none := by
  decide

/-- C6 (amended): the two `server.js` variants reject any file exceeding the
fixed 10 MiB ceiling (their `limits` configurations refuse it), and in all
three variants a request carrying more than one file is rejected; the `P0`
variant imposes no size ceiling. -/
theorem c6_limits (store : List String) (f : UploadFile) (files : List UploadFile)
    (ts rand : Nat) :
    (10 * 1024 * 1024 < f.size →
      isAccepted (V1.uploadPipeline store [f] ts rand).1 = false ∧
      isAccepted (V2.uploadPipeline store [f] ts rand).1 = false ∧
      limitsAccept V1.limits f.size 1 = false ∧
      limitsAccept V2.limits f.size 1 = false) ∧
    (1 < files.length →
      isAccepted (V1.uploadPipeline store files ts rand).1 = false ∧
      isAccepted (V2.uploadPipeline store files ts rand).1 = false ∧
      isAccepted (P0.uploadPipeline store files ts).1 = false) := by
  constructor
  · intro hs
    have hns : ¬(f.size ≤ 10 * 1024 * 1024) := by omega
    refine ⟨?_, ?_, ?_, ?_⟩
    · by_cases hf : V1.fileFilter f = false <;>
        simp [V1.uploadPipeline, hf, hs, isAccepted]
    · by_cases hf : V2.fileFilter f = false <;>
        simp [V2.uploadPipeline, hf, hs, isAccepted]
    · simp [limitsAccept, V1.limits, hns]
    · simp [limitsAccept, V2.limits, hns]
  · intro hlen
    rcases files with _ | ⟨a, _ | ⟨b, rest⟩⟩
    · simp at hlen
    · simp at hlen
    · exact ⟨rfl, rfl, rfl⟩

/-- C6 witness: the amended statement evaluated at a file one byte over the
ceiling and at a two-file request. -/
theorem c6_limits_witness :
    (isAccepted (V1.uploadPipeline [] [sampleBig] 5 7).1 = false ∧
     isAccepted (V2.uploadPipeline [] [sampleBig] 5 7).1 = false ∧
     limitsAccept V1.limits sampleBig.size 1 = false ∧
     limitsAccept V2.limits sampleBig.size 1 = false) ∧
    (isAccepted (V1.uploadPipeline [] [sampleA, sampleB] 5 7).1 = false ∧
     isAccepted (V2.uploadPipeline [] [sampleA, sampleB] 5 7).1 = false ∧
     isAccepted (P0.uploadPipeline [] [sampleA, sampleB] 5).1 = false) :=
  ⟨(c6_limits [] sampleBig [] 5 7).1 (by decide),
   (c6_limits [] sampleBig [sampleA, sampleB] 5 7).2 (by decide)⟩

/-! ## C7 -/

/-- C7 counterexample: in the single-item form (`DELETE /image/:filename` of
`P0`), deleting the well-formed name `ghost.png` while no such file exists
yields a 500 server error, not a not-found outcome: the handler maps every
unlink failure, including an absent file, to status 500. -/
theorem c7_single_delete_absent_cex :
    V2.safeName "ghost.png" = true ∧
    (P0.deleteImage [] "ghost.png").1 = { httpStatus := 500, success := false } := by
  decide

/-- C7 (amended): deleting a well-formed filename (other than the dot-only
names `.` and `..`) that names no existing file of the Store yields the
per-item not-found entry in the batch form, leaving the Store unchanged;
the single-item form instead turns the absent file into a 500 error. -/
theorem c7_absent_notfound (store : List String) (img : String)
    (hs : V2.safeName img = true) (h1 : img ≠ ".") (h2 : img ≠ "..")
    (habs : store.contains img = false) :
    (V2.deleteItem store img).1 =
      { filename := img, status := "error", message := some "File not found" } ∧
    (V2.deleteItem store img).2.1 = store ∧
    (P0.deleteImage store img).1 = { httpStatus := 500, success := false } := by
  have habsm : img ∉ store := by simpa using habs
  refine ⟨?_, ?_, ?_⟩ <;> simp [V2.deleteItem, P0.deleteImage, hs, h1, h2, habsm]

/-- C7 witness: the amended statement evaluated at the absent well-formed
name `ghost.png` over the empty Store. -/
theorem c7_absent_notfound_witness :
    (V2.deleteItem [] "ghost.png").1 =
      { filename := "ghost.png", status := "error", message := some "File not found" } ∧
    (V2.deleteItem [] "ghost.png").2.1 = [] ∧
    (P0.deleteImage [] "ghost.png").1 = { httpStatus := 500, success := false } :=
  c7_absent_notfound [] "ghost.png" (by decide) (by decide) (by decide) (by decide)

/-! ## C8 -/

/-- C8 counterexample: `validateImage` only requires the sniffed MIME type
to start with `image/`, so a file whose bytes sniff as `image/bmp` — not
one of the four allowed image types — is accepted and kept. -/
theorem c8_sniff_any_image_cex :
    (V1.uploadPipeline [] [sampleBmp] 3 4).1 = UploadOutcome.accepted "3-4.png" ∧
    sampleBmp.sniffedMime = some "image/bmp" ∧
    V1.allowedTypes.contains "image/bmp" = false := by
  decide

/-- C8 (amended): every upload accepted by the sniffing variant has a
sniffed content type that merely starts with `image/` — some recognized
image format, not necessarily one of the allowed four. -/
theorem c8_accepted_sniff_image (store : List String) (files : List UploadFile)
    (ts rand : Nat) (n : String)
    (h : (V1.uploadPipeline store files ts rand).1 = UploadOutcome.accepted n) :
    ∃ f ∈ files, ∃ m, f.sniffedMime = some m ∧ startsWithStr m "image/" = true := by
  rcases files with _ | ⟨f, _ | ⟨g, rest⟩⟩
  · simp [V1.uploadPipeline] at h
  · refine ⟨f, by simp, ?_⟩
    by_cases hf : V1.fileFilter f = false
    · simp [V1.uploadPipeline, hf] at h
    · by_cases hsz : 10 * 1024 * 1024 < f.size
      · simp [V1.uploadPipeline, hf, hsz] at h
      · by_cases hv : validateImage f.sniffedMime = true
        · cases hm : f.sniffedMime with
          | none => rw [hm] at hv; simp [validateImage] at hv
          | some m =>
            refine ⟨m, rfl, ?_⟩
            rw [hm] at hv
            simpa [validateImage] using hv
        · simp [V1.uploadPipeline, hf, hsz, hv] at h
  · simp [V1.uploadPipeline] at h

/-- C8 witness: the amended statement evaluated at an accepted genuine PNG
upload. -/
theorem c8_accepted_sniff_image_witness :
    ∃ f ∈ [sampleOkUpper], ∃ m, f.sniffedMime = some m ∧
      startsWithStr m "image/" = true :=
  c8_accepted_sniff_image [] [sampleOkUpper] 5 7 "5-7.png" (by decide)

/-! ## C3 -/

/-- C3: every rejected upload of the sniffing variant — disallowed declared
type, oversize, too many files, missing file, or failed post-write content
sniff — leaves no new file in the Store (the resulting Store is a
sub-collection of the previous one), and in the content-sniff case the
freshly written file is removed: the generated name is absent afterwards. -/
theorem c3_rejected_upload_clean (store : List String) (files : List UploadFile)
    (ts rand : Nat)
    (h : isAccepted (V1.uploadPipeline store files ts rand).1 = false) :
    ((V1.uploadPipeline store files ts rand).2).Sublist store ∧
    ((V1.uploadPipeline store files ts rand).1 = UploadOutcome.rejectedContent →
      ∀ f ∈ files,
        V1.filename ts rand f.originalname ∉ (V1.uploadPipeline store files ts rand).2) := by
  rcases files with _ | ⟨f, _ | ⟨g, rest⟩⟩
  · exact ⟨by simp [V1.uploadPipeline], by intro hc; simp [V1.uploadPipeline] at hc⟩
  · by_cases hf : V1.fileFilter f = false
    · refine ⟨by simp [V1.uploadPipeline, hf], ?_⟩
      intro hc
      simp [V1.uploadPipeline, hf] at hc
    · by_cases hsz : 10 * 1024 * 1024 < f.size
      · refine ⟨by simp [V1.uploadPipeline, hf, hsz], ?_⟩
        intro hc
        simp [V1.uploadPipeline, hf, hsz] at hc
      · by_cases hv : validateImage f.sniffedMime = true
        · exfalso
          simp [V1.uploadPipeline, hf, hsz, hv, isAccepted] at h
        · constructor
          · simp only [V1.uploadPipeline, hf, hsz, hv]
            simp only [if_neg, if_false]
            simpa using insert_then_remove_sublist store (V1.filename ts rand f.originalname)
          · intro _ f2 hf2
            rcases List.mem_singleton.mp hf2 with rfl
            simp only [V1.uploadPipeline, hf, hsz, hv]
            simpa using not_mem_remove (insertFile store (V1.filename ts rand f2.originalname))
              (V1.filename ts rand f2.originalname)
  · exact ⟨by simp [V1.uploadPipeline], by intro hc; simp [V1.uploadPipeline] at hc⟩

/-- C3 witness: the statement evaluated at an upload whose bytes sniff as
plain text: the file is written and then removed, leaving the empty Store. -/
theorem c3_rejected_upload_clean_witness :
    ((V1.uploadPipeline [] [sampleSniffFail] 5 7).2).Sublist [] ∧
    ((V1.uploadPipeline [] [sampleSniffFail] 5 7).1 = UploadOutcome.rejectedContent →
      ∀ f ∈ [sampleSniffFail],
        V1.filename 5 7 f.originalname ∉ (V1.uploadPipeline [] [sampleSniffFail] 5 7).2) :=
  c3_rejected_upload_clean [] [sampleSniffFail] 5 7 (by decide)

/-! ## C4 -/

/-- C4 counterexample: the `P0` variant generates `Date.now()` followed by
the original extension unchanged — no hyphen, no random integer, no
lowercasing — so the name it stores for `pic.PNG` does not follow the
specified pattern (every patterned name contains a hyphen). -/
theorem c4_generated_name_cex :
    P0.filename 99 "pic.PNG" = "99.PNG" ∧
    ¬ FollowsGeneratedPattern "pic.PNG" "99.PNG" := by
  refine ⟨by decide, ?_⟩
  rintro ⟨ts, r, h⟩
  have hm : '-' ∈ ("99.PNG" : String).data := by
    rw [h]
    exact dash_mem_pattern (toString ts) (toString r) (toLowerStr (extname "pic.PNG"))
  exact absurd hm (by decide)

/-- C4 (amended): every upload accepted by either `server.js` variant is
stored under the generated name — millisecond timestamp, hyphen, random
integer, lowercased original extension; the `P0` variant instead stores
timestamp plus unmodified original extension. -/
theorem c4_generated_name_pattern (store : List String) (files : List UploadFile)
    (ts rand : Nat) :
    (∀ n, (V1.uploadPipeline store files ts rand).1 = UploadOutcome.accepted n →
      ∃ f ∈ files, n = V1.filename ts rand f.originalname ∧
        FollowsGeneratedPattern f.originalname n) ∧
    (∀ n, (V2.uploadPipeline store files ts rand).1 = UploadOutcome.accepted n →
      ∃ f ∈ files, n = V2.filename ts rand f.originalname ∧
        FollowsGeneratedPattern f.originalname n) := by
  constructor <;> intro n h <;> rcases files with _ | ⟨f, _ | ⟨g, rest⟩⟩
  · simp [V1.uploadPipeline] at h
  · refine ⟨f, by simp, ?_⟩
    by_cases hf : V1.fileFilter f = false
    · simp [V1.uploadPipeline, hf] at h
    · by_cases hsz : 10 * 1024 * 1024 < f.size
      · simp [V1.uploadPipeline, hf, hsz] at h
      · by_cases hv : validateImage f.sniffedMime = true
        · have hn : V1.filename ts rand f.originalname = n := by
            simpa [V1.uploadPipeline, hf, hsz, hv] using h
          subst hn
          exact ⟨rfl, ⟨ts, rand, rfl⟩⟩
        · simp [V1.uploadPipeline, hf, hsz, hv] at h
  · simp [V1.uploadPipeline] at h
  · simp [V2.uploadPipeline] at h
  · refine ⟨f, by simp, ?_⟩
    by_cases hf : V2.fileFilter f = false
    · simp [V2.uploadPipeline, hf] at h
    · by_cases hsz : 10 * 1024 * 1024 < f.size
      · simp [V2.uploadPipeline, hf, hsz] at h
      · have hn : V2.filename ts rand f.originalname = n := by
          simpa [V2.uploadPipeline, hf, hsz] using h
        subst hn
        exact ⟨rfl, ⟨ts, rand, rfl⟩⟩
  · simp [V2.uploadPipeline] at h

/-- C4 witness: the amended statement evaluated at an accepted upload of
`a.PNG`: the stored name is the timestamp, a hyphen, the random suffix and
the lowercased extension. -/
theorem c4_generated_name_pattern_witness :
    ∃ f ∈ [sampleOkUpper], "5-7.png" = V1.filename 5 7 f.originalname ∧
      FollowsGeneratedPattern f.originalname "5-7.png" :=
  (c4_generated_name_pattern [] [sampleOkUpper] 5 7).1 "5-7.png" (by decide)

/-! ## C9 -/

/-- A merge sort by descending modification time is pairwise descending. -/
theorem pairwise_desc (mtime : String → Nat) (l : List String) :
    (l.mergeSort (fun a b => mtime b ≤ mtime a)).Pairwise (fun a b => mtime b ≤ mtime a) := by
  have h := @List.sorted_mergeSort String (fun a b => decide (mtime b ≤ mtime a))
    (fun a b c h1 h2 => by simp at h1 h2 ⊢; omega)
    (fun a b => by simpa using Nat.le_total (mtime b) (mtime a)) l
  exact h.imp (fun hab => by simpa using hab)

/-- C9 counterexample: the `P0` dashboard renders every directory entry:
`notes.txt`, whose extension is recognized by neither variant, appears in
its image list, so the listing does not contain exactly the files with a
recognized image extension. -/
theorem c9_dashboard_unfiltered_cex :
    P0.dashboardImages ["notes.txt"]
      = [{ name := "notes.txt", url := "/uploads/notes.txt" }] ∧
    V1.recognizedExts.contains (toLowerStr (extname "notes.txt")) = false ∧
    V2.recognizedExts.contains (toLowerStr (extname "notes.txt")) = false := by
  decide

/-- C9 (amended): in the two `server.js` variants the listing contains
exactly the directory entries with a recognized image extension (as a
permutation of that filtering) ordered descending by modification time;
the `P0` dashboard instead returns every entry, unfiltered and unsorted,
in directory order. -/
theorem c9_listing_filter_sort (files : List String) (mtime : String → Nat) :
    (V1.listImages files mtime).Perm
      (files.filter (fun f => V1.recognizedExts.contains (toLowerStr (extname f)))) ∧
    (V1.listImages files mtime).Pairwise (fun a b => mtime b ≤ mtime a) ∧
    (V2.listImages files mtime).Perm
      (files.filter (fun f => V2.recognizedExts.contains (toLowerStr (extname f)))) ∧
    (V2.listImages files mtime).Pairwise (fun a b => mtime b ≤ mtime a) ∧
    (P0.dashboardImages files).map ImageEntry.name = files :=
  ⟨List.mergeSort_perm _ _, pairwise_desc mtime _,
   List.mergeSort_perm _ _, pairwise_desc mtime _, by
    induction files with
    | nil => rfl
    | cons a t ih => simpa [P0.dashboardImages] using ih⟩

/-! ## C2 -/

/-- Every per-item result carries the requested filename. -/
theorem deleteItem_filename (store : List String) (i : String) :
    ((V2.deleteItem store i).1).filename = i := by
  unfold V2.deleteItem
  split
  · rfl
  · split
    · rfl
    · split <;> rfl

/-- A per-item result is a success exactly for a well-formed name of an
existing file (dot-only names excluded). -/
theorem deleteItem_success_eq (store : List String) (i : String)
    (h1 : i ≠ ".") (h2 : i ≠ "..") :
    isSuccessItem (V2.deleteItem store i).1 = (V2.safeName i && store.contains i) := by
  cases hs : V2.safeName i <;> by_cases hc : i ∈ store <;>
    simp [V2.deleteItem, isSuccessItem, hs, hc, h1, h2]

/-- A per-item result is invalid-name exactly for a malformed name. -/
theorem deleteItem_invalid_eq (store : List String) (i : String)
    (h1 : i ≠ ".") (h2 : i ≠ "..") :
    isInvalidItem (V2.deleteItem store i).1 = !V2.safeName i := by
  cases hs : V2.safeName i <;> by_cases hc : i ∈ store <;>
    simp [V2.deleteItem, isInvalidItem, hs, hc, h1, h2, fsDirError]

/-- A per-item result is not-found exactly for a well-formed absent name
(dot-only names excluded). -/
theorem deleteItem_notfound_eq (store : List String) (i : String)
    (h1 : i ≠ ".") (h2 : i ≠ "..") :
    isNotFoundItem (V2.deleteItem store i).1 = (V2.safeName i && !store.contains i) := by
  cases hs : V2.safeName i <;> by_cases hc : i ∈ store <;>
    simp [V2.deleteItem, isNotFoundItem, hs, hc, h1, h2, fsDirError]

/-- Deleting one name leaves membership of every other name unchanged. -/
theorem deleteItem_store_contains (store : List String) (i j : String) (hne : j ≠ i) :
    ((V2.deleteItem store i).2.1).contains j = store.contains j := by
  unfold V2.deleteItem
  split
  · rfl
  · split
    · rfl
    · split
      · exact contains_filter_ne store i j hne
      · rfl


/-- Sequential batch processing yields one entry per request item, in
order, and the success / invalid-name / not-found entries count exactly
the well-formed existing names, the malformed names, and the well-formed
absent names of the request (for distinct, dot-free names). -/
theorem processItems_spec (imgs : List String) : ∀ store : List String,
    imgs.Nodup → (∀ i ∈ imgs, i ≠ "." ∧ i ≠ "..") →
    ((V2.processItems store imgs).1.map ItemResult.filename = imgs) ∧
    ((V2.processItems store imgs).1.filter isSuccessItem).length
      = (imgs.filter (fun i => V2.safeName i && store.contains i)).length ∧
    ((V2.processItems store imgs).1.filter isInvalidItem).length
      = (imgs.filter (fun i => !V2.safeName i)).length ∧
    ((V2.processItems store imgs).1.filter isNotFoundItem).length
      = (imgs.filter (fun i => V2.safeName i && !store.contains i)).length := by
  induction imgs with
  | nil => intro store _ _; simp [V2.processItems]
  | cons i rest ih =>
    intro store hnd hdot
    have hi := hdot i (List.mem_cons_self i rest)
    have hdrest : ∀ j ∈ rest, j ≠ "." ∧ j ≠ ".." :=
      fun j hj => hdot j (List.mem_cons_of_mem i hj)
    have hnr : i ∉ rest ∧ rest.Nodup := List.nodup_cons.mp hnd
    have ihr := ih ((V2.deleteItem store i).2.1) hnr.2 hdrest
    have hcontains : ∀ j ∈ rest,
        ((V2.deleteItem store i).2.1).contains j = store.contains j :=
      fun j hj => deleteItem_store_contains store i j (fun he => hnr.1 (he ▸ hj))
    have htailS :
        ((V2.processItems (V2.deleteItem store i).2.1 rest).1.filter isSuccessItem).length
          = (rest.filter (fun j => V2.safeName j && store.contains j)).length := by
      rw [ihr.2.1]
      congr 1
      apply List.filter_congr
      intro j hj
      rw [hcontains j hj]
    have htailN :
        ((V2.processItems (V2.deleteItem store i).2.1 rest).1.filter isNotFoundItem).length
          = (rest.filter (fun j => V2.safeName j && !store.contains j)).length := by
      rw [ihr.2.2.2]
      congr 1
      apply List.filter_congr
      intro j hj
      rw [hcontains j hj]
    refine ⟨?_, ?_, ?_, ?_⟩
    · simp only [V2.processItems, List.map_cons]
      rw [deleteItem_filename store i, ihr.1]
    · simp only [V2.processItems, List.filter_cons]
      rw [deleteItem_success_eq store i hi.1 hi.2]
      cases hsc : (V2.safeName i && store.contains i) <;> simp [htailS, hsc]
    · simp only [V2.processItems, List.filter_cons]
      rw [deleteItem_invalid_eq store i hi.1 hi.2]
      cases hs : V2.safeName i <;> simp [ihr.2.2.1, hs]
    · simp only [V2.processItems, List.filter_cons]
      rw [deleteItem_notfound_eq store i hi.1 hi.2]
      cases hnf : (V2.safeName i && !store.contains i) <;> simp [htailN, hnf]


/-- The three per-item categories partition the request. -/
theorem count_partition (store : List String) (imgs : List String) :
    (imgs.filter (fun i => V2.safeName i && store.contains i)).length
      + (imgs.filter (fun i => !V2.safeName i)).length
      + (imgs.filter (fun i => V2.safeName i && !store.contains i)).length
      = imgs.length := by
  induction imgs with
  | nil => simp
  | cons i rest ih =>
    simp only [List.filter_cons]
    cases hs : V2.safeName i <;> cases hc : store.contains i <;>
      simp [hs, hc] at ih ⊢ <;> omega

/-- C2 (amended): for a batch deletion of N distinct filenames none of
which is `.` or `..`, of which K are well-formed names of existing stored
files and M are malformed, the handler processes every item (the details
list the N filenames in order) and reports exactly K successes, M
invalid-name entries and N - K - M not-found entries, answering HTTP 200
exactly when K is at least 1 and HTTP 400 exactly when K = 0. -/
theorem c2_batch_itemized (store imgs : List String)
    (hnd : imgs.Nodup) (hdot : ∀ i ∈ imgs, i ≠ "." ∧ i ≠ "..") :
    ((V2.deleteBatch store imgs).1.detailsOf.map ItemResult.filename = imgs) ∧
    ((V2.deleteBatch store imgs).1.detailsOf.filter isSuccessItem).length
      = (imgs.filter (fun i => V2.safeName i && store.contains i)).length ∧
    ((V2.deleteBatch store imgs).1.detailsOf.filter isInvalidItem).length
      = (imgs.filter (fun i => !V2.safeName i)).length ∧
    ((V2.deleteBatch store imgs).1.detailsOf.filter isNotFoundItem).length
      = imgs.length
        - (imgs.filter (fun i => V2.safeName i && store.contains i)).length
        - (imgs.filter (fun i => !V2.safeName i)).length ∧
    ((V2.deleteBatch store imgs).1.statusOf = 200
      ↔ 1 ≤ (imgs.filter (fun i => V2.safeName i && store.contains i)).length) ∧
    ((V2.deleteBatch store imgs).1.statusOf = 400
      ↔ (imgs.filter (fun i => V2.safeName i && store.contains i)).length = 0) := by
  have hps := processItems_spec imgs store hnd hdot
  have hpart := count_partition store imgs
  by_cases he : imgs.isEmpty = true
  · have hnil : imgs = [] := List.isEmpty_iff.mp he
    subst hnil
    simp [V2.deleteBatch, DeleteResponse.detailsOf, DeleteResponse.statusOf]
  · unfold V2.deleteBatch
    rw [if_neg he]
    by_cases hz : (((V2.processItems store imgs).1.filter isSuccessItem).length == 0) = true
    · rw [if_pos hz]
      have hscnt : ((V2.processItems store imgs).1.filter isSuccessItem).length = 0 := by
        simpa using hz
      have hK : (imgs.filter (fun i => V2.safeName i && store.contains i)).length = 0 := by
        rw [← hps.2.1]; exact hscnt
      dsimp only
      simp only [DeleteResponse.detailsOf, DeleteResponse.statusOf]
      refine ⟨hps.1, hps.2.1, hps.2.2.1, ?_, ?_, ?_⟩
      · rw [hps.2.2.2, ← hpart]
        omega
      · constructor <;> intro h <;> first | trivial | exact h.elim | omega
      · constructor <;> intro h <;> first | trivial | exact h.elim | omega
    · rw [if_neg hz]
      have hscnt : ((V2.processItems store imgs).1.filter isSuccessItem).length ≠ 0 := by
        simpa using hz
      have hK : (imgs.filter (fun i => V2.safeName i && store.contains i)).length ≠ 0 := by
        rw [← hps.2.1]; exact hscnt
      dsimp only
      simp only [DeleteResponse.detailsOf, DeleteResponse.statusOf]
      refine ⟨hps.1, hps.2.1, hps.2.2.1, ?_, ?_, ?_⟩
      · rw [hps.2.2.2, ← hpart]
        omega
      · constructor <;> intro h <;> first | trivial | exact h.elim | omega
      · constructor <;> intro h <;> first | trivial | exact h.elim | omega

/-- C2 counterexample: for the Store holding `a.png`, the request `[..]`
(N = 1, K = 0, M = 0, since `..` passes the safe pattern and names no
stored file) should report one not-found entry, but the handler reports
none — the path joins to the parent directory, which exists, and the
unlink throws; and the request deleting `a.png` twice (N = 2, K = 2 by the
claim since both name an existing stored file) should report two
successes, but reports one success and one not-found. -/
theorem c2_batch_counts_cex :
    V2.safeName ".." = true ∧
    ((V2.deleteBatch ["a.png"] [".."]).1.detailsOf.filter isNotFoundItem).length = 0 ∧
    ((V2.deleteBatch ["a.png"] [".."]).1.detailsOf.filter isInvalidItem).length = 0 ∧
    ((V2.deleteBatch ["a.png"] [".."]).1.detailsOf.filter isSuccessItem).length = 0 ∧
    ((V2.deleteBatch ["a.png"] ["a.png", "a.png"]).1.detailsOf.filter isSuccessItem).length = 1 ∧
    ((V2.deleteBatch ["a.png"] ["a.png", "a.png"]).1.detailsOf.filter isNotFoundItem).length = 1 := by
  decide

/-- C2 witness: the amended statement evaluated at a Store of two files
and a batch naming one existing file, one malformed name and one absent
file. -/
theorem c2_batch_itemized_witness :
    ((V2.deleteBatch ["a.png", "b.png"] ["a.png", "bad name", "c.png"]).1.detailsOf.map
        ItemResult.filename = ["a.png", "bad name", "c.png"]) ∧
    ((V2.deleteBatch ["a.png", "b.png"] ["a.png", "bad name", "c.png"]).1.detailsOf.filter
        isSuccessItem).length
      = (["a.png", "bad name", "c.png"].filter
          (fun i => V2.safeName i && ["a.png", "b.png"].contains i)).length ∧
    ((V2.deleteBatch ["a.png", "b.png"] ["a.png", "bad name", "c.png"]).1.detailsOf.filter
        isInvalidItem).length
      = (["a.png", "bad name", "c.png"].filter (fun i => !V2.safeName i)).length ∧
    ((V2.deleteBatch ["a.png", "b.png"] ["a.png", "bad name", "c.png"]).1.detailsOf.filter
        isNotFoundItem).length
      = (["a.png", "bad name", "c.png"] : List String).length
        - (["a.png", "bad name", "c.png"].filter
            (fun i => V2.safeName i && ["a.png", "b.png"].contains i)).length
        - (["a.png", "bad name", "c.png"].filter (fun i => !V2.safeName i)).length ∧
    ((V2.deleteBatch ["a.png", "b.png"] ["a.png", "bad name", "c.png"]).1.statusOf = 200
      ↔ 1 ≤ (["a.png", "bad name", "c.png"].filter
          (fun i => V2.safeName i && ["a.png", "b.png"].contains i)).length) ∧
    ((V2.deleteBatch ["a.png", "b.png"] ["a.png", "bad name", "c.png"]).1.statusOf = 400
      ↔ (["a.png", "bad name", "c.png"].filter
          (fun i => V2.safeName i && ["a.png", "b.png"].contains i)).length = 0) :=
  c2_batch_itemized ["a.png", "b.png"] ["a.png", "bad name", "c.png"] (by decide) (by decide)
